import Mathlib

set_option maxHeartbeats 1000000
set_option maxRecDepth 4000

/-!
Verification of the appo-mcp diagnostic core: a shallow embedding of the
issue matcher (`diagnoseIssue`) and the permission pattern analyzer
(`checkPermissions` / `analyzePermissionPatterns`), together with proofs of
the specified behaviour.  JavaScript strings are modelled as Lean `String`,
`String.prototype.includes` as substring containment on the underlying
character lists, `toLowerCase` as character-wise lowering, and JS
truthiness of an optional string argument as "present and non-empty".
Bracket access on the feature-map object literal is modelled including its
prototype chain (an unknown key may still find a truthy
`Object.prototype`-inherited property), and the TypeError that can escape
the analyzer on such keys is modelled by an `Except.error` result.
-/

/-- Truthiness of a possibly-absent JS string value: `undefined` and the
empty string are falsy, every other string is truthy. -/
def jsTruthy : Option String → Bool
  | none => false
  | some s => !(s == "")

/-- Model of `String.prototype.toLowerCase` (character-wise lowering). -/
def jsToLowerCase (s : String) : String :=
  String.mk (s.data.map Char.toLower)

/-- Model of `s.includes(pat)`: `pat` occurs contiguously inside `s`. -/
def jsIncludes (s pat : String) : Bool :=
  decide (pat.data <:+: s.data)

/-- Model of `Array.prototype.join(sep)` for string arrays. -/
def jsJoin (sep : String) : List String → String
  | [] => ""
  | [a] => a
  | a :: b :: l => a ++ sep ++ jsJoin sep (b :: l)

/-- Model of `s.charAt(0).toUpperCase() + s.slice(1)`. -/
def jsCapitalize (s : String) : String :=
  match s.data with
  | [] => ""
  | c :: cs => String.mk (c.toUpper :: cs)

/-- Known-issue catalogue entry (`interface Issue` in the source). -/
structure Issue where
  title : String
  symptoms : List String
  causes : List String
  solutions : List String
  codeExample : Option String
deriving DecidableEq, Repr

def knownIssues : List Issue := [
  { title := "SDK not working in browser",
    symptoms := ["not working",
      "doesn\x27t work",
      "nothing happens",
      "no response",
      "undefined",
      "browser",
      "web"],
    causes := ["The SDK is designed for React Native WebViews and provides graceful fallbacks in browsers",
      "Native features require the host app to be running"],
    solutions := ["Check `appo.isNative` before using native-only features",
      "Implement fallback UI for web browsers",
      "Test in the actual React Native WebView environment"],
    codeExample := some
      "const appo = getAppo();\n\nif (appo.isNative) \x7b\n  // Full native functionality available\n  const token = await appo.push.getToken();\n\x7d else \x7b\n  // Running in browser - show fallback\n  console.log(\x27Push notifications require the native app\x27);\n\x7d" },
  { title := "Permission always denied",
    symptoms := ["permission denied",
      "always denied",
      "can\x27t get permission",
      "requestPermission returns denied"],
    causes := ["Running in a browser (fallback returns \x27denied\x27)",
      "User previously denied permission",
      "Permission not configured in app.json/Info.plist"],
    solutions := ["Check if running in native context with `appo.isNative`",
      "For iOS: Add usage description in Info.plist",
      "For Android: Ensure permissions in AndroidManifest.xml",
      "Guide users to enable permissions in device Settings"],
    codeExample := some
      "const status = await appo.push.requestPermission();\n\nif (status === \x27denied\x27) \x7b\n  // Check if we\x27re in native\n  if (!appo.isNative) \x7b\n    console.log(\x27Native app required for push notifications\x27);\n  \x7d else \x7b\n    // User denied - prompt to enable in Settings\n    alert(\x27Please enable notifications in your device Settings\x27);\n  \x7d\n\x7d" },
  { title := "Push token is null",
    symptoms := ["token null",
      "token is null",
      "getToken returns null",
      "no push token",
      "undefined token"],
    causes := ["Permission not granted before requesting token",
      "Running in browser (fallback returns null)",
      "Push notification service not configured",
      "Network connectivity issues"],
    solutions := ["Always request permission before getting token",
      "Verify Expo push notification setup",
      "Check network connectivity",
      "Ensure `appo.isNative` is true"],
    codeExample := some
      "async function getPushToken() \x7b\n  const appo = getAppo();\n\n  if (!appo.isNative) \x7b\n    console.log(\x27Push requires native app\x27);\n    return null;\n  \x7d\n\n  const permission = await appo.push.requestPermission();\n  if (permission !== \x27granted\x27) \x7b\n    console.log(\x27Permission not granted\x27);\n    return null;\n  \x7d\n\n  const token = await appo.push.getToken();\n  if (!token) \x7b\n    console.log(\x27Could not get push token - check Expo config\x27);\n  \x7d\n\n  return token;\n\x7d" },
  { title := "Biometrics not available",
    symptoms := ["biometrics not available",
      "face id not working",
      "touch id not working",
      "isAvailable returns false"],
    causes := ["Device doesn\x27t have biometric hardware",
      "Biometrics not enrolled on device",
      "Running in browser/simulator",
      "Permission not granted in app settings"],
    solutions := ["Check `isAvailable()` before offering biometric auth",
      "Test on physical device with enrolled biometrics",
      "Provide password/PIN fallback"],
    codeExample := some
      "async function setupBiometrics() \x7b\n  const appo = getAppo();\n\n  const available = await appo.biometrics.isAvailable();\n\n  if (!available) \x7b\n    // Fallback to PIN or password\n    return \x7b method: \x27password\x27 \x7d;\n  \x7d\n\n  return \x7b method: \x27biometrics\x27 \x7d;\n\x7d" },
  { title := "Camera not capturing",
    symptoms := ["camera not working",
      "takePicture returns null",
      "camera black screen",
      "no photo"],
    causes := ["Permission not granted",
      "Camera in use by another app",
      "Running in browser",
      "User cancelled capture"],
    solutions := ["Request and verify camera permission first",
      "Handle null return from takePicture()",
      "Check `appo.isNative` before camera operations"],
    codeExample := some
      "async function capturePhoto() \x7b\n  const appo = getAppo();\n\n  if (!appo.isNative) \x7b\n    // Could use file input fallback\n    return null;\n  \x7d\n\n  const permission = await appo.camera.requestPermission();\n  if (permission !== \x27granted\x27) \x7b\n    console.log(\x27Camera permission required\x27);\n    return null;\n  \x7d\n\n  const photo = await appo.camera.takePicture();\n  if (!photo) \x7b\n    console.log(\x27Photo capture cancelled or failed\x27);\n    return null;\n  \x7d\n\n  return photo;\n\x7d" },
  { title := "Location inaccurate or slow",
    symptoms := ["location inaccurate",
      "wrong location",
      "location slow",
      "takes long time",
      "accuracy"],
    causes := ["GPS not available (indoors)",
      "Low accuracy mode enabled",
      "Device location services disabled"],
    solutions := ["Check the accuracy property in the returned position",
      "Request high accuracy if needed",
      "Handle timeout gracefully",
      "Show loading state to user"],
    codeExample := some
      "async function getLocation() \x7b\n  const appo = getAppo();\n\n  const position = await appo.location.getCurrentPosition();\n\n  if (position) \x7b\n    if (position.accuracy > 100) \x7b\n      console.log(\x27Low accuracy:\x27, position.accuracy, \x27meters\x27);\n      // Consider retrying or warning user\n    \x7d\n    return position;\n  \x7d\n\n  return null;\n\x7d" },
  { title := "Storage not persisting",
    symptoms := ["storage not saving",
      "data lost",
      "storage cleared",
      "values disappear"],
    causes := ["Using browser localStorage (cleared on app reinstall)",
      "Async timing issues",
      "Storage quota exceeded"],
    solutions := ["Verify storage key consistency",
      "Await storage operations",
      "Handle storage errors"],
    codeExample := some
      "async function saveSettings(settings: object) \x7b\n  const appo = getAppo();\n\n  try \x7b\n    await appo.storage.set(\x27user-settings\x27, JSON.stringify(settings));\n    console.log(\x27Settings saved\x27);\n  \x7d catch (error) \x7b\n    console.error(\x27Failed to save settings:\x27, error);\n  \x7d\n\x7d\n\nasync function loadSettings() \x7b\n  const appo = getAppo();\n\n  const stored = await appo.storage.get(\x27user-settings\x27);\n  if (stored) \x7b\n    return JSON.parse(stored);\n  \x7d\n  return null;\n\x7d" },
  { title := "Network status incorrect",
    symptoms := ["network status wrong",
      "shows offline when online",
      "network not updating"],
    causes := ["Browser fallback using navigator.onLine (limited accuracy)",
      "Network change listener not set up"],
    solutions := ["Use onChange listener for real-time updates",
      "Don\x27t rely solely on initial status",
      "Test actual network requests as backup"],
    codeExample := some
      "import \x7b useEffect, useState \x7d from \x27react\x27;\nimport \x7b getAppo \x7d from \x27@appolabs/appo\x27;\n\nfunction useNetworkStatus() \x7b\n  const [isOnline, setIsOnline] = useState(true);\n  const appo = getAppo();\n\n  useEffect(() => \x7b\n    // Initial status\n    appo.network.getStatus().then(s => setIsOnline(s?.isConnected ?? true));\n\n    // Listen for changes\n    return appo.network.onChange(status => \x7b\n      setIsOnline(status?.isConnected ?? true);\n    \x7d);\n  \x7d, []);\n\n  return isOnline;\n\x7d" },
  { title := "Types not working",
    symptoms := ["typescript error",
      "type error",
      "types not found",
      "cannot find module"],
    causes := ["Package not properly installed",
      "TypeScript configuration issues",
      "IDE cache needs refresh"],
    solutions := ["Reinstall the package: `pnpm add @appolabs/appo`",
      "Ensure moduleResolution is \x27bundler\x27 or \x27node16\x27",
      "Restart your IDE/TypeScript server"],
    codeExample := some
      "// Make sure to import types explicitly if needed\nimport \x7b getAppo \x7d from \x27@appolabs/appo\x27;\nimport type \x7b PermissionStatus, PushMessage \x7d from \x27@appolabs/appo\x27;\n\nconst appo = getAppo();\n// appo should now have full type inference" }]
/-- Arguments of the `diagnose` tool (`interface DiagnoseIssueArgs`); every
field is optional at the wire level, so each is a possibly-absent string. -/
structure DiagnoseIssueArgs where
  symptom : Option String
  feature : Option String
  errorMessage : Option String
  platform : Option String

/-- Early-return message of `diagnoseIssue` when `symptom` is falsy. -/
def missingSymptomMessage : String :=
  "Please describe the issue you\x27re experiencing in the `symptom` parameter."

/-- Keyword matching step of `diagnoseIssue`: the `matchedIssues` constant.
An entry matches when some symptom keyword, lowercased, is a substring of the
lowercased symptom. -/
def matchedIssuesFor (symptom : String) : List Issue :=
  let searchTerms := jsToLowerCase symptom
  knownIssues.filter (fun issue =>
    issue.symptoms.any (fun s => jsIncludes searchTerms (jsToLowerCase s)))

/-- Feature-hint narrowing predicate of `diagnoseIssue`: keep entries whose
lowercased title contains the feature, or one of whose keywords contains the
feature as a substring. -/
def featureFilter (issues : List Issue) (feature : String) : List Issue :=
  issues.filter (fun issue =>
    jsIncludes (jsToLowerCase issue.title) feature ||
      issue.symptoms.any (fun s => jsIncludes s feature))

/-- The `featureIssues` constant of `diagnoseIssue`: narrowing applies only
when the feature argument is truthy. -/
def featureIssuesFor (symptom : String) (feature : Option String) : List Issue :=
  if jsTruthy feature then featureFilter (matchedIssuesFor symptom) (feature.getD "")
  else matchedIssuesFor symptom

/-- The `relevantIssues` constant of `diagnoseIssue`: an empty narrowing is
discarded in favour of the full keyword-matched set. -/
def relevantIssuesFor (symptom : String) (feature : Option String) : List Issue :=
  if (featureIssuesFor symptom feature).length > 0 then featureIssuesFor symptom feature
  else matchedIssuesFor symptom

/-- Sections pushed for a single issue by the loop in `buildDiagnosisOutput`. -/
def issueSection (issue : Issue) : List String :=
  ["### " ++ issue.title ++ "\n", "**Possible Causes:**"]
    ++ issue.causes.map (fun c => "- " ++ c)
    ++ ["", "**Solutions:**"]
    ++ issue.solutions.map (fun s => "- " ++ s)
    ++ [""]
    ++ (if jsTruthy issue.codeExample then
          ["**Example Fix:**", "```tsx", issue.codeExample.getD "", "```", ""]
        else [])

/-- Concatenation of the per-issue sections, in list order. -/
def issueSectionsConcat : List Issue → List String
  | [] => []
  | issue :: rest => issueSection issue ++ issueSectionsConcat rest

/-- Closing note appended at the end of every keyword-match diagnosis. -/
def diagnosisClosingNote : String :=
  "\nIf none of these solutions work, please provide more details about your setup (package versions, platform, full error message)."

/-- Section list built by `buildDiagnosisOutput` before joining: heading,
optional platform line, the first three issues, a rule and the closing note. -/
def buildDiagnosisSections (issues : List Issue) (platform : Option String) : List String :=
  ["## Diagnosis Results\n"]
    ++ (if jsTruthy platform then ["Platform: **" ++ platform.getD "" ++ "**\n"] else [])
    ++ issueSectionsConcat (issues.take 3)
    ++ ["---", diagnosisClosingNote]

/-- Rendering of a successful diagnosis (`buildDiagnosisOutput`). -/
def buildDiagnosisOutput (issues : List Issue) (platform : Option String) : String :=
  jsJoin "\n" (buildDiagnosisSections issues platform)

/-- Fixed five-step checklist of the generic fallback report. -/
def generalTroubleshootingSteps : List String :=
  ["1. **Check native context:** Verify `appo.isNative` is true",
   "2. **Check permissions:** Ensure required permissions are granted",
   "3. **Check installation:** Verify `@appolabs/appo` is properly installed",
   "4. **Check console:** Look for errors in the console/logs",
   "5. **Test on device:** Some features only work on physical devices"]

/-- Fixed debug-code snippet lines of the generic fallback report. -/
def debugCodeLines : List String :=
  ["import \x7b getAppo \x7d from \x27@appolabs/appo\x27;",
   "",
   "function debugSdk() \x7b",
   "  const appo = getAppo();",
   "  console.log(\x27SDK Version:\x27, appo.version);",
   "  console.log(\x27Is Native:\x27, appo.isNative);",
   "  appo.device.getInfo().then(info => \x7b",
   "    console.log(\x27Device:\x27, info);",
   "  \x7d);",
   "\x7d"]

/-- Closing request of the generic fallback report. -/
def genericClosingNote : String :=
  "Please provide more details (error messages, code snippets) for a more specific diagnosis."

/-- Section list built by `buildGenericDiagnosis` before joining. -/
def buildGenericSections (symptom : String)
    (feature errorMessage platform : Option String) : List String :=
  ["## Diagnosis\n", "**Symptom:** " ++ symptom ++ "\n"]
    ++ (if jsTruthy feature then ["**Feature:** " ++ feature.getD ""] else [])
    ++ (if jsTruthy errorMessage then ["**Error:** " ++ errorMessage.getD ""] else [])
    ++ (if jsTruthy platform then ["**Platform:** " ++ platform.getD ""] else [])
    ++ [""]
    ++ ["### General Troubleshooting Steps\n"]
    ++ generalTroubleshootingSteps
    ++ [""]
    ++ ["### Debug Code\n", "```tsx"]
    ++ debugCodeLines
    ++ ["```", ""]
    ++ [genericClosingNote]

/-- Rendering of the generic fallback report (`buildGenericDiagnosis`). -/
def buildGenericDiagnosis (symptom : String)
    (feature errorMessage platform : Option String) : String :=
  jsJoin "\n" (buildGenericSections symptom feature errorMessage platform)

/-- The `diagnose` tool entry point (`diagnoseIssue`): validates the symptom,
matches and narrows candidates, and renders either the match report or the
generic fallback.  The returned string is the single text content item. -/
def diagnoseIssue (args : DiagnoseIssueArgs) : String :=
  if !jsTruthy args.symptom then
    missingSymptomMessage
  else
    let symptom := args.symptom.getD ""
    let relevantIssues := relevantIssuesFor symptom args.feature
    if relevantIssues.length == 0 then
      buildGenericDiagnosis symptom args.feature args.errorMessage args.platform
    else
      buildDiagnosisOutput relevantIssues args.platform

def getRecommendedPattern : String → String
  | "push" =>
    "import \x7b useState \x7d from \x27react\x27;\nimport \x7b getAppo, type PermissionStatus \x7d from \x27@appolabs/appo\x27;\n\nfunction PushNotificationSetup() \x7b\n  const [status, setStatus] = useState<PermissionStatus | null>(null);\n  const [showExplanation, setShowExplanation] = useState(true);\n  const appo = getAppo();\n\n  const handleEnable = async () => \x7b\n    try \x7b\n      const result = await appo.push.requestPermission();\n      setStatus(result);\n\n      if (result === \x27granted\x27) \x7b\n        const token = await appo.push.getToken();\n        // Send token to your backend\n      \x7d\n    \x7d catch (error) \x7b\n      console.error(\x27Push permission error:\x27, error);\n    \x7d\n  \x7d;\n\n  if (status === \x27denied\x27) \x7b\n    return <p>Push notifications are disabled. Enable them in Settings.</p>;\n  \x7d\n\n  if (showExplanation) \x7b\n    return (\n      <div>\n        <p>We\x27ll send you updates about your orders and exclusive offers.</p>\n        <button onClick=\x7b() => \x7b setShowExplanation(false); handleEnable(); \x7d\x7d>\n          Enable Notifications\n        </button>\n      </div>\n    );\n  \x7d\n\n  return null;\n\x7d"
  | "camera" =>
    "import \x7b useState \x7d from \x27react\x27;\nimport \x7b getAppo, type PermissionStatus \x7d from \x27@appolabs/appo\x27;\n\nfunction CameraCapture() \x7b\n  const [status, setStatus] = useState<PermissionStatus | null>(null);\n  const appo = getAppo();\n\n  const handleCapture = async () => \x7b\n    try \x7b\n      // Request permission first\n      if (status !== \x27granted\x27) \x7b\n        const result = await appo.camera.requestPermission();\n        setStatus(result);\n        if (result !== \x27granted\x27) return;\n      \x7d\n\n      // Now safe to capture\n      const photo = await appo.camera.takePicture();\n      if (photo) \x7b\n        // Handle photo\n      \x7d\n    \x7d catch (error) \x7b\n      console.error(\x27Camera error:\x27, error);\n    \x7d\n  \x7d;\n\n  if (status === \x27denied\x27) \x7b\n    return <p>Camera access denied. Please enable in Settings.</p>;\n  \x7d\n\n  return <button onClick=\x7bhandleCapture\x7d>Take Photo</button>;\n\x7d"
  | "location" =>
    "import \x7b useState \x7d from \x27react\x27;\nimport \x7b getAppo, type PermissionStatus \x7d from \x27@appolabs/appo\x27;\n\nfunction LocationAccess() \x7b\n  const [status, setStatus] = useState<PermissionStatus | null>(null);\n  const [showRationale, setShowRationale] = useState(true);\n  const appo = getAppo();\n\n  const handleGetLocation = async () => \x7b\n    try \x7b\n      if (status !== \x27granted\x27) \x7b\n        const result = await appo.location.requestPermission();\n        setStatus(result);\n        if (result !== \x27granted\x27) return;\n      \x7d\n\n      const position = await appo.location.getCurrentPosition();\n      if (position) \x7b\n        // Use location\n      \x7d\n    \x7d catch (error) \x7b\n      console.error(\x27Location error:\x27, error);\n    \x7d\n  \x7d;\n\n  if (status === \x27denied\x27) \x7b\n    return <p>Location access denied. Enable in Settings to use this feature.</p>;\n  \x7d\n\n  if (showRationale) \x7b\n    return (\n      <div>\n        <p>We need your location to find nearby stores.</p>\n        <button onClick=\x7b() => \x7b setShowRationale(false); handleGetLocation(); \x7d\x7d>\n          Share Location\n        </button>\n      </div>\n    );\n  \x7d\n\n  return null;\n\x7d"
  | _ => ""
/-- Arguments of the permission analyzer tool (`interface CheckPermissionsArgs`);
both arrive from the wire and may be absent. -/
structure CheckPermissionsArgs where
  code : Option String
  feature : Option String

/-- Per-feature API data (`featureApiMap` values). -/
structure FeatureApi where
  api : String
  protectedMethods : List String
deriving DecidableEq, Repr

/-- The `featureApiMap` record, as an ordered key-value list (key order is
the object-literal order used by `Object.keys`). -/
def featureApiMap : List (String × FeatureApi) :=
  [("push", { api := "appo.push", protectedMethods := ["getToken"] }),
   ("camera", { api := "appo.camera", protectedMethods := ["takePicture"] }),
   ("location", { api := "appo.location", protectedMethods := ["getCurrentPosition"] })]

/-- Own property names of `Object.prototype`: JS bracket access on an object
literal falls back to these inherited properties when the key is not an own
key, and every one of them holds a truthy value (a function, or, for
`__proto__`, the `Object.prototype` object itself). -/
def objectPrototypeKeys : List String :=
  ["constructor", "hasOwnProperty", "isPrototypeOf", "propertyIsEnumerable",
   "toLocaleString", "toString", "valueOf", "__proto__",
   "__defineGetter__", "__defineSetter__", "__lookupGetter__", "__lookupSetter__"]

/-- Result of the JS bracket access `featureApiMap[feature]`: one of the three
own entries, a truthy `Object.prototype`-inherited value that is not a feature
record, or `undefined`. -/
inductive FeatureLookup where
  | found (fa : FeatureApi)
  | inherited
  | undefined
deriving DecidableEq, Repr

/-- Index access `featureApiMap[feature]` for an arbitrary runtime string,
including the prototype chain of the object literal. -/
def featureApiMapGet (feature : String) : FeatureLookup :=
  match (featureApiMap.find? (fun p => p.1 == feature)).map Prod.snd with
  | some fa => FeatureLookup.found fa
  | none =>
    if feature ∈ objectPrototypeKeys then FeatureLookup.inherited
    else FeatureLookup.undefined

/-- Truthiness of the lookup result: only `undefined` is falsy. -/
def featureLookupTruthy : FeatureLookup → Bool
  | FeatureLookup.undefined => false
  | _ => true

/-- The TypeError raised when the analyzer destructures or iterates a value
that lacks the expected fields. -/
inductive JsTypeError where
  | typeError
deriving DecidableEq, Repr

/-- Analysis record accumulated by `analyzePermissionPatterns`
(`interface PermissionAnalysis`). -/
structure PermissionAnalysis where
  hasPermissionRequest : Bool
  hasStatusCheck : Bool
  hasDeniedHandling : Bool
  hasUndeterminedHandling : Bool
  hasErrorHandling : Bool
  hasUserExplanation : Bool
  issues : List String
  suggestions : List String
deriving DecidableEq, Repr

/-- Issue text for a protected method used without a permission request. -/
def protectedMethodIssue (m : String) : String :=
  "Protected method `" ++ m ++ "` is used without requesting permission first."

/-- Issue text when no `requestPermission()` call is present. -/
def noRequestIssue (feature : String) : String :=
  "No `requestPermission()` call found for " ++ feature ++ "."

/-- Issue text when no denied-status handling is present. -/
def noDeniedIssue : String :=
  "No handling for \x27denied\x27 permission status. Users who deny permission won\x27t see helpful feedback."

/-- Suggestion text when no user-facing explanation is present. -/
def explainSuggestion : String :=
  "Consider explaining to users WHY you need this permission before requesting it. This improves acceptance rates."

/-- Suggestion text when no try/catch error handling is present. -/
def tryCatchSuggestion : String :=
  "Add try/catch blocks to handle potential errors during permission requests."

/-- Suggestion text when the undetermined state is not handled. -/
def undeterminedSuggestion : String :=
  "Handle the \x27undetermined\x27 state - this is the initial state before the user makes a choice."

/-- The fixed sequence of substring checks of `analyzePermissionPatterns`:
six pattern flags, then the accumulated issues and suggestions.  The feature
key is resolved by JS bracket access: for one of the three own keys the
analysis completes; for any other key the destructured `protectedMethods` is
`undefined` (the lookup yields `undefined`, or a truthy value inherited from
`Object.prototype` that has no such field), and destructuring or iterating it
raises a TypeError, modelled as `Except.error`. -/
def analyzePermissionPatterns (code : String) (feature : String) :
    Except JsTypeError PermissionAnalysis :=
  match featureApiMapGet feature with
  | FeatureLookup.undefined => Except.error JsTypeError.typeError
  | FeatureLookup.inherited => Except.error JsTypeError.typeError
  | FeatureLookup.found fa =>
    let protectedMethods := fa.protectedMethods
    let hasPermissionRequest := jsIncludes code "requestPermission"
    let hasStatusCheck :=
      jsIncludes code "permission" || jsIncludes code "status" ||
        jsIncludes code "\x27granted\x27" || jsIncludes code "\"granted\""
    let hasDeniedHandling :=
      jsIncludes code "\x27denied\x27" || jsIncludes code "\"denied\"" ||
        jsIncludes code "=== \x27denied\x27" || jsIncludes code "=== \"denied\""
    let hasUndeterminedHandling :=
      jsIncludes code "\x27undetermined\x27" || jsIncludes code "\"undetermined\"" ||
        jsIncludes code "null"
    let hasErrorHandling := jsIncludes code "try" && jsIncludes code "catch"
    let hasUserExplanation :=
      jsIncludes code "modal" || jsIncludes code "Modal" ||
        jsIncludes code "dialog" || jsIncludes code "Dialog" ||
        jsIncludes code "alert" || jsIncludes code "confirm" ||
        jsIncludes code "explanation" || jsIncludes code "why" ||
        jsIncludes code "permission needed"
    let issues :=
      protectedMethods.filterMap (fun m =>
        if jsIncludes code ("." ++ m ++ "(") && !jsIncludes code "requestPermission" then
          some (protectedMethodIssue m)
        else none)
      ++ (if !hasPermissionRequest then [noRequestIssue feature] else [])
      ++ (if !hasDeniedHandling then [noDeniedIssue] else [])
    let suggestions :=
      (if !hasUserExplanation then [explainSuggestion] else [])
      ++ (if !hasErrorHandling then [tryCatchSuggestion] else [])
      ++ (if !hasUndeterminedHandling then [undeterminedSuggestion] else [])
    Except.ok
      { hasPermissionRequest := hasPermissionRequest,
        hasStatusCheck := hasStatusCheck,
        hasDeniedHandling := hasDeniedHandling,
        hasUndeterminedHandling := hasUndeterminedHandling,
        hasErrorHandling := hasErrorHandling,
        hasUserExplanation := hasUserExplanation,
        issues := issues,
        suggestions := suggestions }

/-- Checkbox mark used by the checklist rendering. -/
def checkboxMark (b : Bool) : String := if b then "x" else " "

/-- Section list built by `buildAnalysisOutput` before joining. -/
def buildAnalysisSections (feature : String) (analysis : PermissionAnalysis) : List String :=
  ["## " ++ jsCapitalize feature ++ " Permission Analysis\n",
   "### Permission Flow Checklist\n",
   "- [" ++ checkboxMark analysis.hasPermissionRequest ++ "] Calls `requestPermission()`",
   "- [" ++ checkboxMark analysis.hasStatusCheck ++ "] Checks permission status",
   "- [" ++ checkboxMark analysis.hasDeniedHandling ++ "] Handles \x27denied\x27 status",
   "- [" ++ checkboxMark analysis.hasUndeterminedHandling ++ "] Handles initial/undetermined state",
   "- [" ++ checkboxMark analysis.hasErrorHandling ++ "] Has error handling",
   "- [" ++ checkboxMark analysis.hasUserExplanation ++ "] Explains why permission is needed",
   ""]
    ++ (if analysis.issues.length > 0 then
          ["### Issues Found\n"] ++ analysis.issues.map (fun i => "- âŒ " ++ i) ++ [""]
        else [])
    ++ (if analysis.suggestions.length > 0 then
          ["### Suggestions\n"]
            ++ analysis.suggestions.map (fun s => "- ðŸ’¡ " ++ s) ++ [""]
        else [])
    ++ ["### Recommended Pattern\n", "```tsx", getRecommendedPattern feature, "```"]

/-- Rendering of the permission analysis (`buildAnalysisOutput`). -/
def buildAnalysisOutput (feature : String) (analysis : PermissionAnalysis) : String :=
  jsJoin "\n" (buildAnalysisSections feature analysis)

/-- Early-return message of `checkPermissions` when `code` or `feature` is falsy. -/
def missingParamsMessage : String :=
  "Please provide both `code` and `feature` (push, camera, or location) parameters."

/-- Early-return message of `checkPermissions` for an unrecognized feature. -/
def invalidFeatureMessage : String :=
  "Invalid feature. Permission-required features are: " ++
    jsJoin ", " (featureApiMap.map Prod.fst)

/-- The permission analyzer tool entry point (`checkPermissions`): validates
the arguments, analyzes the snippet and renders the report.  An `Except.ok`
string is the single text content item of a normal response; `Except.error`
models the TypeError that escapes when the feature key names a truthy
`Object.prototype`-inherited property and slips past the falsy guard. -/
def checkPermissions (args : CheckPermissionsArgs) : Except JsTypeError String :=
  if !jsTruthy args.code || !jsTruthy args.feature then
    Except.ok missingParamsMessage
  else
    let code := args.code.getD ""
    let feature := args.feature.getD ""
    if !featureLookupTruthy (featureApiMapGet feature) then
      Except.ok invalidFeatureMessage
    else
      match analyzePermissionPatterns code feature with
      | Except.error e => Except.error e
      | Except.ok analysis => Except.ok (buildAnalysisOutput feature analysis)
/-- A string with a non-empty character list is not the empty string. -/
theorem string_ne_empty_of_data {s : String} (h : s.data ≠ []) : s ≠ "" :=
  fun e => h (by rw [e])

/-- Appending a non-empty string on the left yields a non-empty string. -/
theorem append_ne_empty_left {a : String} (b : String) (h : a.data ≠ []) : a ++ b ≠ "" :=
  string_ne_empty_of_data (by
    rw [String.data_append]
    exact fun e => h (List.append_eq_nil.mp e).1)

/-- Distribution of `jsJoin` over the concatenation of two non-empty lists. -/
theorem jsJoin_append (sep : String) :
    ∀ l m : List String, l ≠ [] → m ≠ [] →
      jsJoin sep (l ++ m) = jsJoin sep l ++ sep ++ jsJoin sep m
  | [], _, hl, _ => absurd rfl hl
  | [_], [], _, hm => absurd rfl hm
  | [a], b :: m', _, _ => rfl
  | a :: c :: l', m, _, hm => by
    cases m with
    | nil => exact absurd rfl hm
    | cons b m' =>
      have ih := jsJoin_append sep (c :: l') (b :: m') (by simp) (by simp)
      calc jsJoin sep ((a :: c :: l') ++ b :: m')
          = a ++ sep ++ jsJoin sep ((c :: l') ++ b :: m') := rfl
        _ = a ++ sep ++ (jsJoin sep (c :: l') ++ sep ++ jsJoin sep (b :: m')) := by rw [ih]
        _ = (a ++ sep ++ jsJoin sep (c :: l')) ++ sep ++ jsJoin sep (b :: m') := by
            simp [String.append_assoc]
        _ = jsJoin sep (a :: c :: l') ++ sep ++ jsJoin sep (b :: m') := rfl

/-- A contiguous non-empty run of sections stays contiguous in the joined
string: list-level infix turns into substring containment after `jsJoin`. -/
theorem jsJoin_infix_mono (sep : String) {M L : List String}
    (hM : M ≠ []) (h : M <:+: L) :
    (jsJoin sep M).data <:+: (jsJoin sep L).data := by
  obtain ⟨A, B, rfl⟩ := h
  cases hA : A with
  | nil =>
    cases hB : B with
    | nil => simp
    | cons b B' =>
      simp only [List.nil_append]
      rw [jsJoin_append sep M (b :: B') hM (by simp)]
      exact ⟨[], sep.data ++ (jsJoin sep (b :: B')).data, by simp⟩
  | cons a A' =>
    cases hB : B with
    | nil =>
      rw [List.append_nil, jsJoin_append sep (a :: A') M (by simp) hM]
      exact ⟨(jsJoin sep (a :: A')).data ++ sep.data, [], by simp⟩
    | cons b B' =>
      rw [List.append_assoc,
        jsJoin_append sep (a :: A') (M ++ b :: B') (by simp) (by
          exact fun e => hM (List.append_eq_nil.mp e).1),
        jsJoin_append sep M (b :: B') hM (by simp)]
      exact ⟨(jsJoin sep (a :: A')).data ++ sep.data,
        sep.data ++ (jsJoin sep (b :: B')).data, by simp⟩

/-- A single section of the list is a substring of the joined string. -/
theorem jsJoin_infix_of_mem (sep : String) {s : String} {L : List String}
    (h : s ∈ L) : s.data <:+: (jsJoin sep L).data := by
  have hinf : [s] <:+: L := by
    obtain ⟨A, B, rfl⟩ := List.append_of_mem h
    exact ⟨A, B, by simp⟩
  simpa [jsJoin] using jsJoin_infix_mono sep (by simp) hinf

/-- The join of a list whose last element is `a` ends with `a`. -/
theorem jsJoin_concat_suffix (sep : String) :
    ∀ l : List String, ∀ a : String, ∃ t, jsJoin sep (l ++ [a]) = t ++ a
  | [], a => ⟨"", String.ext (by simp [jsJoin])⟩
  | b :: l', a => by
    rw [jsJoin_append sep (b :: l') [a] (by simp) (by simp)]
    exact ⟨jsJoin sep (b :: l') ++ sep, rfl⟩

/-- The join of a list with a non-empty head is non-empty. -/
theorem jsJoin_cons_ne_empty (sep : String) {a : String} (l : List String)
    (h : a.data ≠ []) : jsJoin sep (a :: l) ≠ "" := by
  cases l with
  | nil => exact string_ne_empty_of_data h
  | cons b l' =>
    show a ++ sep ++ jsJoin sep (b :: l') ≠ ""
    rw [String.append_assoc]
    exact append_ne_empty_left _ h

/-- Appending to the right of a list preserves list-infix. -/
theorem infix_append_right_ext {α : Type} {M L : List α} (X : List α)
    (h : M <:+: L) : M <:+: L ++ X := by
  obtain ⟨A, B, rfl⟩ := h
  exact ⟨A, B ++ X, by simp⟩

/-- Appending to the left of a list preserves list-infix. -/
theorem infix_append_left_ext {α : Type} {M L : List α} (X : List α)
    (h : M <:+: L) : M <:+: X ++ L := by
  obtain ⟨A, B, rfl⟩ := h
  exact ⟨X ++ A, B, by simp⟩

/-- The section block of any listed issue is contiguous in the concatenated
per-issue sections. -/
theorem issueSection_infix_concat {issue : Issue} :
    ∀ {l : List Issue}, issue ∈ l → issueSection issue <:+: issueSectionsConcat l
  | [], h => absurd h (List.not_mem_nil _)
  | a :: l', h => by
    rcases List.mem_cons.mp h with rfl | h'
    · exact (List.prefix_append _ _).isInfix
    · exact (issueSection_infix_concat h').trans
        ((List.suffix_append (issueSection a) (issueSectionsConcat l')).isInfix)

/-- Truthiness of a present string value is exactly non-emptiness. -/
theorem jsTruthy_some {s : String} : jsTruthy (some s) = true ↔ s ≠ "" := by
  simp [jsTruthy]

/-- Specification of `jsIncludes` as containment of character lists. -/
theorem jsIncludes_iff {s pat : String} :
    jsIncludes s pat = true ↔ pat.data <:+: s.data := by
  simp [jsIncludes]
/-- Appending on the right keeps the character list of a string non-empty. -/
theorem data_append_left_ne {a : String} (b : String) (h : a.data ≠ []) :
    (a ++ b).data ≠ [] := by
  rw [String.data_append]
  intro e
  exact h (List.append_eq_nil.mp e).1

/-- When the keyword match is non-empty, the relevant set is non-empty. -/
theorem relevantIssuesFor_ne_nil (symptom : String) (feature : Option String)
    (h : matchedIssuesFor symptom ≠ []) : relevantIssuesFor symptom feature ≠ [] := by
  unfold relevantIssuesFor
  split
  · next hgt => exact fun e => by simp [e] at hgt
  · exact h

/-- When the keyword match is empty, the relevant set is empty. -/
theorem relevantIssuesFor_eq_nil (symptom : String) (feature : Option String)
    (hm : matchedIssuesFor symptom = []) : relevantIssuesFor symptom feature = [] := by
  simp [relevantIssuesFor, featureIssuesFor, featureFilter, hm]

/-- Branch characterization: a truthy symptom with a non-empty relevant set
renders the diagnosis report. -/
theorem diagnoseIssue_match (symptom : String) (feature em pl : Option String)
    (hs : symptom ≠ "") (hm : matchedIssuesFor symptom ≠ []) :
    diagnoseIssue ⟨some symptom, feature, em, pl⟩
      = buildDiagnosisOutput (relevantIssuesFor symptom feature) pl := by
  have h2 := relevantIssuesFor_ne_nil symptom feature hm
  simp [diagnoseIssue, jsTruthy, hs, h2]

/-- Branch characterization: a truthy symptom with an empty keyword match
renders the generic fallback report. -/
theorem diagnoseIssue_generic (symptom : String) (feature em pl : Option String)
    (hs : symptom ≠ "") (hm : matchedIssuesFor symptom = []) :
    diagnoseIssue ⟨some symptom, feature, em, pl⟩
      = buildGenericDiagnosis symptom feature em pl := by
  simp [diagnoseIssue, jsTruthy, hs, relevantIssuesFor_eq_nil symptom feature hm]

/-- The generic fallback report is never the empty string. -/
theorem buildGenericDiagnosis_ne_empty (symptom : String)
    (feature em pl : Option String) :
    buildGenericDiagnosis symptom feature em pl ≠ "" := by
  unfold buildGenericDiagnosis buildGenericSections
  exact jsJoin_cons_ne_empty _ _ (by decide)

/-- The keyword-match diagnosis report is never the empty string. -/
theorem buildDiagnosisOutput_ne_empty (issues : List Issue) (pl : Option String) :
    buildDiagnosisOutput issues pl ≠ "" := by
  unfold buildDiagnosisOutput buildDiagnosisSections
  exact jsJoin_cons_ne_empty _ _ (by decide)

/-- The permission analysis report is never the empty string. -/
theorem buildAnalysisOutput_ne_empty (feature : String) (a : PermissionAnalysis) :
    buildAnalysisOutput feature a ≠ "" := by
  unfold buildAnalysisOutput buildAnalysisSections
  exact jsJoin_cons_ne_empty _ _ (data_append_left_ne _ (data_append_left_ne _ (by decide)))

/-- Every branch of `diagnoseIssue` returns a non-empty string. -/
theorem diagnoseIssue_ne_empty (d : DiagnoseIssueArgs) : diagnoseIssue d ≠ "" := by
  unfold diagnoseIssue
  by_cases h : (!jsTruthy d.symptom) = true
  · rw [if_pos h]; decide
  · rw [if_neg h]
    by_cases h2 : ((relevantIssuesFor (d.symptom.getD "") d.feature).length == 0) = true
    · simpa [h2] using
        buildGenericDiagnosis_ne_empty (d.symptom.getD "") d.feature d.errorMessage d.platform
    · simpa [h2] using
        buildDiagnosisOutput_ne_empty (relevantIssuesFor (d.symptom.getD "") d.feature) d.platform

/-- Every normal (non-throwing) response of `checkPermissions` is a non-empty
string. -/
theorem checkPermissions_ok_ne_empty (c : CheckPermissionsArgs) (out : String)
    (hout : checkPermissions c = Except.ok out) : out ≠ "" := by
  unfold checkPermissions at hout
  by_cases h : (!jsTruthy c.code || !jsTruthy c.feature) = true
  · rw [if_pos h] at hout
    injection hout with h1
    rw [← h1]
    decide
  · rw [if_neg h] at hout
    rcases hl : featureApiMapGet (c.feature.getD "") with fa | _ | _
    · simp [hl, featureLookupTruthy, analyzePermissionPatterns] at hout
      rw [← hout]
      exact buildAnalysisOutput_ne_empty _ _
    · simp [hl, featureLookupTruthy, analyzePermissionPatterns] at hout
    · simp [hl, featureLookupTruthy] at hout
      rw [← hout]
      decide
/-- Claim C5 (code bug): the never-fail guarantee is violated by the Permission
Analyzer.  At code "const x = 1;" and feature "constructor", the JS bracket
access finds the truthy `Object.prototype`-inherited `constructor` property,
so the invalid-feature guard is passed, the destructured `protectedMethods`
is `undefined`, and iterating it throws a TypeError instead of returning a
text response.  (The diagnose entry point does satisfy the guarantee, and
every normal analyzer response is non-empty: see `diagnoseIssue_ne_empty`
and `checkPermissions_ok_ne_empty`.) -/
theorem claim_never_fail_code_bug :
    checkPermissions ⟨some "const x = 1;", some "constructor"⟩
      = Except.error JsTypeError.typeError := rfl

/-- Claim C6: for an absent or empty symptom, `diagnoseIssue` returns exactly the
guidance-request message, as a normal return value, regardless of the other
arguments. -/
theorem claim_empty_symptom_guidance (feature em pl : Option String) :
    diagnoseIssue ⟨none, feature, em, pl⟩ = missingSymptomMessage
      ∧ diagnoseIssue ⟨some "", feature, em, pl⟩ = missingSymptomMessage :=
  ⟨rfl, rfl⟩

/-- Claim C10: an empty `code` string is falsy, so the analyzer returns the
missing-parameter message for any feature, exactly as for an absent `code`. -/
theorem claim_empty_code_missing_params (feature : Option String) :
    checkPermissions ⟨some "", feature⟩ = Except.ok missingParamsMessage
      ∧ checkPermissions ⟨some "", feature⟩ = checkPermissions ⟨none, feature⟩ :=
  ⟨rfl, rfl⟩

/-- Claim C8 counterexample: a call whose feature ("bluetooth") is not one of
the three valid features but whose code is empty returns the missing-parameter
message, not the invalid-feature message; and a call with truthy code whose
feature ("constructor") is also not one of the three valid features throws a
TypeError instead of returning the message.  Both falsify the unrestricted
claim. -/
theorem claim_invalid_feature_counterexample :
    checkPermissions ⟨some "", some "bluetooth"⟩ = Except.ok missingParamsMessage
      ∧ checkPermissions ⟨some "", some "bluetooth"⟩ ≠ Except.ok invalidFeatureMessage
      ∧ checkPermissions ⟨some "const x = 1;", some "constructor"⟩
          = Except.error JsTypeError.typeError
      ∧ checkPermissions ⟨some "const x = 1;", some "constructor"⟩
          ≠ Except.ok invalidFeatureMessage := by
  have hb : checkPermissions ⟨some "", some "bluetooth"⟩
      = Except.ok missingParamsMessage := rfl
  have hc : checkPermissions ⟨some "const x = 1;", some "constructor"⟩
      = Except.error JsTypeError.typeError := rfl
  refine ⟨hb, ?_, hc, ?_⟩
  · intro h
    exact absurd (Except.ok.inj (hb.symm.trans h)) (by decide)
  · intro h
    exact Except.noConfusion (hc.symm.trans h)

/-- Claim C8 (amended): for every call with a truthy (present, non-empty)
`code` and a truthy `feature` that is neither push, camera or location nor an
`Object.prototype`-inherited property name, the analyzer returns the
invalid-feature message listing the three valid names, as a normal return
value.  (Prototype-inherited names such as "constructor" instead take the
throwing path recorded in the counterexample.) -/
theorem claim_invalid_feature_message (code f : String)
    (hc : code ≠ "") (hf : f ≠ "")
    (hvalid : f ∉ (["push", "camera", "location"] : List String))
    (hproto : f ∉ objectPrototypeKeys) :
    checkPermissions ⟨some code, some f⟩ = Except.ok invalidFeatureMessage := by
  have h1 : ("push" == f) = false :=
    beq_eq_false_iff_ne.mpr fun e =>
      hvalid (e ▸ (by simp : "push" ∈ (["push", "camera", "location"] : List String)))
  have h2 : ("camera" == f) = false :=
    beq_eq_false_iff_ne.mpr fun e =>
      hvalid (e ▸ (by simp : "camera" ∈ (["push", "camera", "location"] : List String)))
  have h3 : ("location" == f) = false :=
    beq_eq_false_iff_ne.mpr fun e =>
      hvalid (e ▸ (by simp : "location" ∈ (["push", "camera", "location"] : List String)))
  have hget : featureApiMapGet f = FeatureLookup.undefined := by
    simp [featureApiMapGet, featureApiMap, List.find?, h1, h2, h3, hproto]
  simp [checkPermissions, jsTruthy, hc, hf, hget, featureLookupTruthy]

/-- Witness for C8 (amended) at code "const x = 1;" and feature "bluetooth". -/
theorem claim_invalid_feature_message_witness :
    checkPermissions ⟨some "const x = 1;", some "bluetooth"⟩
      = Except.ok invalidFeatureMessage :=
  claim_invalid_feature_message "const x = 1;" "bluetooth" (by decide) (by decide)
    (by decide) (by decide)

/-- Claim C9 counterexample: the catalogue keyword "getToken returns null" is not a
lowercase string (lowercasing changes it), refuting the claim that every
symptom keyword is lowercase. -/
theorem claim_lowercase_keyword_counterexample :
    (∃ issue ∈ knownIssues, "getToken returns null" ∈ issue.symptoms)
      ∧ jsToLowerCase "getToken returns null" ≠ "getToken returns null" := by
  constructor
  · decide
  · decide

/-- Claim C9 (amended): every catalogue entry has at least one symptom keyword, at
least one cause and at least one solution; the keywords are not all lowercase
(matching lowercases them before comparison). -/
theorem claim_catalogue_entries_nonempty : ∀ issue ∈ knownIssues,
    issue.symptoms ≠ [] ∧ issue.causes ≠ [] ∧ issue.solutions ≠ [] := by
  decide

/-- Witness for C9 (amended) at the first catalogue entry. -/
theorem claim_catalogue_entries_nonempty_witness :
    ∃ issue, issue ∈ knownIssues ∧
      (issue.symptoms ≠ [] ∧ issue.causes ≠ [] ∧ issue.solutions ≠ []) :=
  ⟨knownIssues.head (by decide), List.head_mem _,
    claim_catalogue_entries_nonempty _ (List.head_mem _)⟩
/-- Claim C1: a feature hint whose narrowing of a non-empty keyword-matched set is
empty is discarded: `diagnoseIssue` reports from the full keyword-matched
candidate set, so a feature hint never turns a non-empty match into an empty
one. -/
theorem claim_feature_narrowing_fallback (symptom feature : String)
    (em pl : Option String) (hs : symptom ≠ "") (hf : feature ≠ "")
    (hnarrow : featureFilter (matchedIssuesFor symptom) feature = [])
    (hm : matchedIssuesFor symptom ≠ []) :
    relevantIssuesFor symptom (some feature) = matchedIssuesFor symptom
      ∧ diagnoseIssue ⟨some symptom, some feature, em, pl⟩
          = buildDiagnosisOutput (matchedIssuesFor symptom) pl := by
  have hfi : featureIssuesFor symptom (some feature) = [] := by
    simp [featureIssuesFor, jsTruthy, hf, hnarrow]
  have hrel : relevantIssuesFor symptom (some feature) = matchedIssuesFor symptom := by
    simp [relevantIssuesFor, hfi]
  refine ⟨hrel, ?_⟩
  rw [diagnoseIssue_match symptom (some feature) em pl hs hm, hrel]

/-- Witness for C1: symptom "token is null" with feature hint "device" still
reports from the keyword-matched set (the push-token issue). -/
theorem claim_feature_narrowing_fallback_witness :
    relevantIssuesFor "token is null" (some "device") = matchedIssuesFor "token is null"
      ∧ diagnoseIssue ⟨some "token is null", some "device", none, none⟩
          = buildDiagnosisOutput (matchedIssuesFor "token is null") none :=
  claim_feature_narrowing_fallback "token is null" "device" none none
    (by decide) (by decide) (by decide) (by decide)

/-- Claim C3: for the analyzer with feature camera and code containing
".takePicture(" but not "requestPermission", the analysis succeeds and its
issues list has exactly one entry referencing takePicture (the
protected-method issue), contains the generic no-requestPermission issue,
and the permission-request flag is false. -/
theorem claim_camera_protected_method (code : String)
    (h1 : jsIncludes code ".takePicture(" = true)
    (h2 : jsIncludes code "requestPermission" = false) :
    ∃ a, analyzePermissionPatterns code "camera" = Except.ok a
      ∧ (a.issues.filter (fun s => jsIncludes s "takePicture")).length = 1
      ∧ protectedMethodIssue "takePicture" ∈ a.issues
      ∧ noRequestIssue "camera" ∈ a.issues
      ∧ a.hasPermissionRequest = false := by
  have hlit : ("." ++ "takePicture" ++ "(" : String) = ".takePicture(" := rfl
  have hk : featureApiMapGet "camera"
      = FeatureLookup.found { api := "appo.camera", protectedMethods := ["takePicture"] } := rfl
  simp only [analyzePermissionPatterns, hk]
  refine ⟨_, rfl, ?_⟩
  cases hD : (jsIncludes code "\x27denied\x27" || jsIncludes code "\"denied\"" ||
      jsIncludes code "=== \x27denied\x27" || jsIncludes code "=== \"denied\"") <;>
    simp [hlit, h1, h2, hD] <;>
    decide

/-- Witness for C3 at the snippet "appo.camera.takePicture()". -/
theorem claim_camera_protected_method_witness :
    ∃ a, analyzePermissionPatterns "appo.camera.takePicture()" "camera" = Except.ok a
      ∧ (a.issues.filter (fun s => jsIncludes s "takePicture")).length = 1
      ∧ protectedMethodIssue "takePicture" ∈ a.issues
      ∧ noRequestIssue "camera" ∈ a.issues
      ∧ a.hasPermissionRequest = false :=
  claim_camera_protected_method "appo.camera.takePicture()" (by decide) (by decide)

/-- Claim C4: for every valid feature and code containing both
"requestPermission" and the quoted denied literal, the analysis succeeds,
both flags are set and none of the default issues (generic no-request,
no-denied-handling, or any protected-method issue) appears. -/
theorem claim_request_and_denied_clean (code f : String)
    (hf : f ∈ (["push", "camera", "location"] : List String))
    (h1 : jsIncludes code "requestPermission" = true)
    (h2 : jsIncludes code "\x27denied\x27" = true) :
    ∃ a, analyzePermissionPatterns code f = Except.ok a
      ∧ a.hasPermissionRequest = true
      ∧ a.hasDeniedHandling = true
      ∧ noRequestIssue f ∉ a.issues
      ∧ noDeniedIssue ∉ a.issues
      ∧ ∀ m : String, protectedMethodIssue m ∉ a.issues := by
  fin_cases hf
  · have hk : featureApiMapGet "push"
        = FeatureLookup.found { api := "appo.push", protectedMethods := ["getToken"] } := rfl
    simp only [analyzePermissionPatterns, hk]
    refine ⟨_, rfl, ?_⟩
    simp [h1, h2]
  · have hk : featureApiMapGet "camera"
        = FeatureLookup.found { api := "appo.camera", protectedMethods := ["takePicture"] } := rfl
    simp only [analyzePermissionPatterns, hk]
    refine ⟨_, rfl, ?_⟩
    simp [h1, h2]
  · have hk : featureApiMapGet "location"
        = FeatureLookup.found
            { api := "appo.location", protectedMethods := ["getCurrentPosition"] } := rfl
    simp only [analyzePermissionPatterns, hk]
    refine ⟨_, rfl, ?_⟩
    simp [h1, h2]

/-- Witness for C4 at a snippet containing both markers, feature push. -/
theorem claim_request_and_denied_clean_witness :
    ∃ a, analyzePermissionPatterns
        "await requestPermission(); if (s === \x27denied\x27) \x7b\x7d" "push" = Except.ok a
      ∧ a.hasPermissionRequest = true
      ∧ a.hasDeniedHandling = true
      ∧ noRequestIssue "push" ∉ a.issues
      ∧ noDeniedIssue ∉ a.issues
      ∧ ∀ m : String, protectedMethodIssue m ∉ a.issues :=
  claim_request_and_denied_clean "await requestPermission(); if (s === \x27denied\x27) \x7b\x7d"
    "push" (by decide) (by decide) (by decide)

/-- The symptom string is echoed verbatim inside the generic report. -/
theorem symptom_echo_embedded (symptom : String) (feature em pl : Option String) :
    symptom.data <:+: (buildGenericDiagnosis symptom feature em pl).data := by
  have hmem : ("**Symptom:** " ++ symptom ++ "\n")
      ∈ buildGenericSections symptom feature em pl := by
    simp [buildGenericSections]
  refine List.IsInfix.trans ?_ (jsJoin_infix_of_mem "\n" hmem)
  exact ⟨"**Symptom:** ".data, "\n".data, by simp⟩

/-- The five-step checklist is a contiguous run of the generic sections. -/
theorem steps_infix_generic (symptom : String) (feature em pl : Option String) :
    generalTroubleshootingSteps <:+: buildGenericSections symptom feature em pl := by
  unfold buildGenericSections
  apply infix_append_right_ext
  apply infix_append_right_ext
  apply infix_append_right_ext
  apply infix_append_right_ext
  apply infix_append_right_ext
  exact (List.suffix_append _ _).isInfix

/-- The debug snippet lines are a contiguous run of the generic sections. -/
theorem debug_infix_generic (symptom : String) (feature em pl : Option String) :
    debugCodeLines <:+: buildGenericSections symptom feature em pl := by
  unfold buildGenericSections
  apply infix_append_right_ext
  apply infix_append_right_ext
  exact (List.suffix_append _ _).isInfix

/-- The relevant candidate list is always a sublist of the catalogue, hence
in catalogue order. -/
theorem relevant_sublist (symptom : String) (feature : Option String) :
    List.Sublist (relevantIssuesFor symptom feature) knownIssues := by
  have hmatched : List.Sublist (matchedIssuesFor symptom) knownIssues := List.filter_sublist _
  unfold relevantIssuesFor
  split
  · unfold featureIssuesFor
    split
    · exact (List.filter_sublist _).trans hmatched
    · exact hmatched
  · exact hmatched

/-- Per-issue section lists are never empty. -/
theorem issueSection_ne_nil (issue : Issue) : issueSection issue ≠ [] := by
  simp [issueSection]

/-- The section block of any of the first three issues is contiguous in the
full diagnosis section list. -/
theorem issueSection_infix_sections (issues : List Issue) (pl : Option String)
    {issue : Issue} (h : issue ∈ issues.take 3) :
    issueSection issue <:+: buildDiagnosisSections issues pl := by
  unfold buildDiagnosisSections
  apply infix_append_right_ext
  exact infix_append_left_ext _ (issueSection_infix_concat h)

/-- The diagnosis report ends with the closing note. -/
theorem sections_end_with_note (issues : List Issue) (pl : Option String) :
    ∃ t, buildDiagnosisOutput issues pl = t ++ diagnosisClosingNote := by
  unfold buildDiagnosisOutput buildDiagnosisSections
  rw [show (["---", diagnosisClosingNote] : List String)
        = ["---"] ++ [diagnosisClosingNote] from rfl,
    ← List.append_assoc]
  exact jsJoin_concat_suffix "\n" _ diagnosisClosingNote
/-- Claim C7: for a non-empty symptom matching no catalogue entry, `diagnoseIssue`
returns the generic fallback report, which echoes the supplied symptom,
feature, error message and platform, contains the fixed five-step
troubleshooting checklist and the fixed debug-code snippet, and is never
empty. -/
theorem claim_generic_fallback_report (symptom : String) (feature em pl : Option String)
    (hs : symptom ≠ "") (hm : matchedIssuesFor symptom = []) :
    diagnoseIssue ⟨some symptom, feature, em, pl⟩
        = buildGenericDiagnosis symptom feature em pl
      ∧ symptom.data <:+: (buildGenericDiagnosis symptom feature em pl).data
      ∧ (∀ f, feature = some f → f ≠ "" →
          f.data <:+: (buildGenericDiagnosis symptom feature em pl).data)
      ∧ (∀ e, em = some e → e ≠ "" →
          e.data <:+: (buildGenericDiagnosis symptom feature em pl).data)
      ∧ (∀ p, pl = some p → p ≠ "" →
          p.data <:+: (buildGenericDiagnosis symptom feature em pl).data)
      ∧ (jsJoin "\n" generalTroubleshootingSteps).data
          <:+: (buildGenericDiagnosis symptom feature em pl).data
      ∧ (jsJoin "\n" debugCodeLines).data
          <:+: (buildGenericDiagnosis symptom feature em pl).data
      ∧ buildGenericDiagnosis symptom feature em pl ≠ "" := by
  refine ⟨diagnoseIssue_generic symptom feature em pl hs hm,
    symptom_echo_embedded symptom feature em pl, ?_, ?_, ?_,
    jsJoin_infix_mono "\n" (by decide) (steps_infix_generic symptom feature em pl),
    jsJoin_infix_mono "\n" (by decide) (debug_infix_generic symptom feature em pl),
    buildGenericDiagnosis_ne_empty symptom feature em pl⟩
  · intro f hfeq hfne
    subst hfeq
    have htr : jsTruthy (some f) = true := jsTruthy_some.mpr hfne
    have hmem : ("**Feature:** " ++ f) ∈ buildGenericSections symptom (some f) em pl := by
      simp [buildGenericSections, htr]
    refine List.IsInfix.trans ?_ (jsJoin_infix_of_mem "\n" hmem)
    exact ⟨"**Feature:** ".data, [], by simp⟩
  · intro e heeq hene
    subst heeq
    have htr : jsTruthy (some e) = true := jsTruthy_some.mpr hene
    have hmem : ("**Error:** " ++ e) ∈ buildGenericSections symptom feature (some e) pl := by
      simp [buildGenericSections, htr]
    refine List.IsInfix.trans ?_ (jsJoin_infix_of_mem "\n" hmem)
    exact ⟨"**Error:** ".data, [], by simp⟩
  · intro p hpeq hpne
    subst hpeq
    have htr : jsTruthy (some p) = true := jsTruthy_some.mpr hpne
    have hmem : ("**Platform:** " ++ p) ∈ buildGenericSections symptom feature em (some p) := by
      simp [buildGenericSections, htr]
    refine List.IsInfix.trans ?_ (jsJoin_infix_of_mem "\n" hmem)
    exact ⟨"**Platform:** ".data, [], by simp⟩

/-- Witness for C7 at symptom "xyzzy quux" with all optional fields set. -/
theorem claim_generic_fallback_report_witness :
    diagnoseIssue ⟨some "xyzzy quux", some "camera", some "boom", some "ios"⟩
        = buildGenericDiagnosis "xyzzy quux" (some "camera") (some "boom") (some "ios")
      ∧ ("xyzzy quux" : String).data
          <:+: (buildGenericDiagnosis "xyzzy quux" (some "camera") (some "boom") (some "ios")).data
      ∧ (∀ f, (some "camera" : Option String) = some f → f ≠ "" →
          f.data <:+: (buildGenericDiagnosis "xyzzy quux" (some "camera") (some "boom")
            (some "ios")).data)
      ∧ (∀ e, (some "boom" : Option String) = some e → e ≠ "" →
          e.data <:+: (buildGenericDiagnosis "xyzzy quux" (some "camera") (some "boom")
            (some "ios")).data)
      ∧ (∀ p, (some "ios" : Option String) = some p → p ≠ "" →
          p.data <:+: (buildGenericDiagnosis "xyzzy quux" (some "camera") (some "boom")
            (some "ios")).data)
      ∧ (jsJoin "\n" generalTroubleshootingSteps).data
          <:+: (buildGenericDiagnosis "xyzzy quux" (some "camera") (some "boom")
            (some "ios")).data
      ∧ (jsJoin "\n" debugCodeLines).data
          <:+: (buildGenericDiagnosis "xyzzy quux" (some "camera") (some "boom")
            (some "ios")).data
      ∧ buildGenericDiagnosis "xyzzy quux" (some "camera") (some "boom") (some "ios") ≠ "" :=
  claim_generic_fallback_report "xyzzy quux" (some "camera") (some "boom") (some "ios")
    (by decide) (by decide)

/-- Claim C2: a catalogue entry is a candidate exactly when some keyword,
lowercased, occurs inside the lowercased symptom; for a non-empty candidate
set the report is rendered from the relevant candidates in catalogue order
(a sublist of the catalogue): it contains, for each of the first three
candidates, its full contiguous section (title heading, causes, solutions
and optional fenced example), and it ends with the closing note. -/
theorem claim_keyword_match_report (symptom : String) (feature em pl : Option String)
    (hs : symptom ≠ "") (hm : matchedIssuesFor symptom ≠ []) :
    (∀ issue, issue ∈ matchedIssuesFor symptom ↔ issue ∈ knownIssues ∧
        ∃ k ∈ issue.symptoms, (jsToLowerCase k).data <:+: (jsToLowerCase symptom).data)
      ∧ List.Sublist (relevantIssuesFor symptom feature) knownIssues
      ∧ diagnoseIssue ⟨some symptom, feature, em, pl⟩
          = buildDiagnosisOutput (relevantIssuesFor symptom feature) pl
      ∧ (∀ issue ∈ (relevantIssuesFor symptom feature).take 3,
          (jsJoin "\n" (issueSection issue)).data
            <:+: (buildDiagnosisOutput (relevantIssuesFor symptom feature) pl).data)
      ∧ (∀ issue ∈ (relevantIssuesFor symptom feature).take 3,
          ("### " ++ issue.title ++ "\n").data
            <:+: (buildDiagnosisOutput (relevantIssuesFor symptom feature) pl).data)
      ∧ ∃ t, buildDiagnosisOutput (relevantIssuesFor symptom feature) pl
          = t ++ diagnosisClosingNote := by
  refine ⟨?_, relevant_sublist symptom feature,
    diagnoseIssue_match symptom feature em pl hs hm, ?_, ?_,
    sections_end_with_note (relevantIssuesFor symptom feature) pl⟩
  · intro issue
    simp [matchedIssuesFor, List.mem_filter, List.any_eq_true, jsIncludes]
  · intro issue hmem
    exact jsJoin_infix_mono "\n" (issueSection_ne_nil issue)
      (issueSection_infix_sections _ pl hmem)
  · intro issue hmem
    have h1 : ("### " ++ issue.title ++ "\n")
        ∈ buildDiagnosisSections (relevantIssuesFor symptom feature) pl :=
      List.IsInfix.mem (by simp [issueSection]) (issueSection_infix_sections _ pl hmem)
    exact jsJoin_infix_of_mem "\n" h1

/-- Witness for C2 at symptom "token is null" with no hints. -/
theorem claim_keyword_match_report_witness :
    (∀ issue, issue ∈ matchedIssuesFor "token is null" ↔ issue ∈ knownIssues ∧
        ∃ k ∈ issue.symptoms,
          (jsToLowerCase k).data <:+: (jsToLowerCase "token is null").data)
      ∧ List.Sublist (relevantIssuesFor "token is null" none) knownIssues
      ∧ diagnoseIssue ⟨some "token is null", none, none, none⟩
          = buildDiagnosisOutput (relevantIssuesFor "token is null" none) none
      ∧ (∀ issue ∈ (relevantIssuesFor "token is null" none).take 3,
          (jsJoin "\n" (issueSection issue)).data
            <:+: (buildDiagnosisOutput (relevantIssuesFor "token is null" none) none).data)
      ∧ (∀ issue ∈ (relevantIssuesFor "token is null" none).take 3,
          ("### " ++ issue.title ++ "\n").data
            <:+: (buildDiagnosisOutput (relevantIssuesFor "token is null" none) none).data)
      ∧ ∃ t, buildDiagnosisOutput (relevantIssuesFor "token is null" none) none
          = t ++ diagnosisClosingNote :=
  claim_keyword_match_report "token is null" none none none (by decide) (by decide)
